import Mathlib

/-!
Verification of the streaming message-relay and fan-out subsystem of the
Demo-chatbot repository.  The definitions below are a shallow embedding of
`src/shared/schema.ts`, the `MemStorage` class and the Express route
handlers of `src/server/routes.ts`.  JavaScript `Map`s are modelled as
insertion-ordered association lists, `Date` timestamps as a logical clock,
and the WebSocket readiness state as a natural number (`WebSocket.OPEN = 1`).
The base64 transport encoding of file attachments is not modelled: an
attachment carries its text content directly, which is what the prompt
builder consumes after the code decodes it.
-/

namespace DemoChatbot

/-- `FileAttachment` from `src/shared/schema.ts`. -/
structure FileAttachment where
  name : String
  type : String
  content : String
deriving DecidableEq, Repr

/-- A row of the `bots` table (`src/shared/schema.ts`). -/
structure Bot where
  id : Nat
  name : String
  avatar : String
  color : String
  description : Option String
  model : String
  createdAt : Nat
deriving DecidableEq, Repr

/-- A row of the `chats` table. -/
structure Chat where
  id : Nat
  botId : Nat
  title : String
  createdAt : Nat
deriving DecidableEq, Repr

/-- A row of the `messages` table. -/
structure Message where
  id : Nat
  chatId : Nat
  content : String
  role : String
  createdAt : Nat
  files : Option (List FileAttachment)
deriving DecidableEq, Repr

/-- A row of the `settings` table (all columns nullable except `id`). -/
structure Settings where
  id : Nat
  apiKey : Option String
  apiUrl : Option String
  tokenLimit : Option Int
  temperature : Option String
  topK : Option String
  useStreamingApi : Option Bool
  customApiHeaders : Option String
  hasApiKey : Option Bool
deriving DecidableEq, Repr

/-- `InsertMessage` (the fields picked by `insertMessageSchema`). -/
structure InsertMessage where
  chatId : Nat
  content : String
  role : String
  files : Option (List FileAttachment)
deriving DecidableEq, Repr

/-- `Partial<InsertMessage>` as produced by `insertMessageSchema.partial()`:
every field may be absent; an absent field leaves the stored value alone
under the `{...message, ...messageUpdate}` spread. -/
structure MessageUpdate where
  chatId : Option Nat := none
  content : Option String := none
  role : Option String := none
  files : Option (Option (List FileAttachment)) := none
deriving DecidableEq, Repr

/-- `Partial<InsertSettings>`. -/
structure SettingsUpdate where
  apiKey : Option (Option String) := none
  apiUrl : Option (Option String) := none
  tokenLimit : Option (Option Int) := none
  temperature : Option (Option String) := none
  topK : Option (Option String) := none
  useStreamingApi : Option (Option Bool) := none
  customApiHeaders : Option (Option String) := none
  hasApiKey : Option (Option Bool) := none
deriving DecidableEq, Repr

/-- Relevant process environment variables. -/
structure Env where
  openaiApiKey : Option String
  openaiApiUrl : Option String
  openaiApiHeaders : Option String
deriving DecidableEq, Repr

/-- JavaScript truthiness of a nullable string: `undefined`, `null` and the
empty string are falsy. -/
def jsTruthyStr : Option String → Bool
  | some s => !(s == "")
  | none => false

/-- The `MemStorage` class of `src/server/storage.ts`.  The JS `Map`s hold
their values in insertion order, which a list preserves; `Date.now` is
replaced by the logical clock `clock`. -/
structure MemStorage where
  bots : List Bot
  chats : List Chat
  messages : List Message
  settings : Option Settings
  botCurrentId : Nat
  chatCurrentId : Nat
  messageCurrentId : Nat
  clock : Nat
deriving DecidableEq, Repr

/-- `MemStorage.getBot`. -/
def MemStorage.getBot (st : MemStorage) (id : Nat) : Option Bot :=
  st.bots.find? (fun b => b.id == id)

/-- `MemStorage.getChat`. -/
def MemStorage.getChat (st : MemStorage) (id : Nat) : Option Chat :=
  st.chats.find? (fun c => c.id == id)

/-- `MemStorage.getMessage`. -/
def MemStorage.getMessage (st : MemStorage) (id : Nat) : Option Message :=
  st.messages.find? (fun m => m.id == id)

/-- `MemStorage.getSettings`. -/
def MemStorage.getSettings (st : MemStorage) : Option Settings :=
  st.settings

/-- Stable insertion sort by `createdAt`, ascending: the model of
`array.sort((a, b) => a.createdAt.getTime() - b.createdAt.getTime())`. -/
def insertByCreatedAt (m : Message) : List Message → List Message
  | [] => [m]
  | x :: xs => if m.createdAt < x.createdAt then m :: x :: xs else x :: insertByCreatedAt m xs

/-- `MemStorage.getMessagesByChatId`: filter by chat, sort by creation time. -/
def MemStorage.getMessagesByChatId (st : MemStorage) (chatId : Nat) : List Message :=
  (st.messages.filter (fun m => m.chatId == chatId)).foldr insertByCreatedAt []

/-- `MemStorage.createMessage`: allocate the next id, stamp the clock,
insert into the map. -/
def MemStorage.createMessage (st : MemStorage) (im : InsertMessage) : Message × MemStorage :=
  let id := st.messageCurrentId
  let message : Message :=
    { id := id, chatId := im.chatId, content := im.content, role := im.role,
      createdAt := st.clock, files := im.files }
  (message,
   { st with messages := st.messages ++ [message],
             messageCurrentId := id + 1, clock := st.clock + 1 })

/-- The `{...message, ...messageUpdate}` spread: a present field of the
update overwrites, an absent one is kept; `id` and `createdAt` are not in
`InsertMessage` and therefore never change. -/
def applyMessageUpdate (m : Message) (u : MessageUpdate) : Message :=
  { id := m.id, chatId := u.chatId.getD m.chatId, content := u.content.getD m.content,
    role := u.role.getD m.role, createdAt := m.createdAt, files := u.files.getD m.files }

/-- `Map.set` on an existing key: replace the (unique) entry with this id in
place; if the key is absent, append (as `Map.set` does). -/
def setMessageEntry (id : Nat) (m : Message) : List Message → List Message
  | [] => [m]
  | x :: xs => if x.id == id then m :: xs else x :: setMessageEntry id m xs

/-- `MemStorage.updateMessage`: returns `undefined` (here `none`) and leaves
the map untouched when the id is unknown. -/
def MemStorage.updateMessage (st : MemStorage) (id : Nat) (u : MessageUpdate) :
    Option Message × MemStorage :=
  match st.getMessage id with
  | none => (none, st)
  | some message =>
    let updatedMessage := applyMessageUpdate message u
    (some updatedMessage,
     { st with messages := setMessageEntry id updatedMessage st.messages })

/-- The base object the non-null assertion `this.settings!` would spread if
settings were absent (spreading `undefined` contributes no fields). -/
def emptySettingsBase : Settings :=
  { id := 0, apiKey := none, apiUrl := none, tokenLimit := none, temperature := none,
    topK := none, useStreamingApi := none, customApiHeaders := none, hasApiKey := none }

/-- `MemStorage.updateSettings`: `this.settings = {...this.settings!, ...u}`. -/
def MemStorage.updateSettings (st : MemStorage) (u : SettingsUpdate) : Settings × MemStorage :=
  let base := st.settings.getD emptySettingsBase
  let merged : Settings :=
    { id := base.id,
      apiKey := u.apiKey.getD base.apiKey,
      apiUrl := u.apiUrl.getD base.apiUrl,
      tokenLimit := u.tokenLimit.getD base.tokenLimit,
      temperature := u.temperature.getD base.temperature,
      topK := u.topK.getD base.topK,
      useStreamingApi := u.useStreamingApi.getD base.useStreamingApi,
      customApiHeaders := u.customApiHeaders.getD base.customApiHeaders,
      hasApiKey := u.hasApiKey.getD base.hasApiKey }
  (merged, { st with settings := some merged })

/-! ## Subscription Hub: the WebSocket clients map of `routes.ts` -/

/-- An entry of the `clients` map: an optional bound chat id plus the
socket's ready state (folded into the record since only `readyState` of the
`ws` object is observed by the broadcast loops). -/
structure Client where
  chatId : Option Nat
  readyState : Nat
deriving DecidableEq, Repr

/-- `WebSocket.OPEN`. -/
def wsOPEN : Nat := 1

/-- The `clients` map: JS `Map<string, Client>` as an insertion-ordered
association list. -/
abbrev ClientsMap := List (String × Client)

/-- The outbound frames of the wire protocol (§6). -/
inductive WsEvent where
  | messageUpdate (messageId : Nat) (content : String)
  | messageComplete (messageId : Nat) (message : Option Message)
  | messageError (messageId : Nat) (error : String)
  | messageEdited (messageId : Nat) (message : Option Message)
deriving DecidableEq, Repr

/-- One broadcast loop (`for (const [clientId, client] of clients.entries())`):
send the event to every client bound to this chat whose socket is open. -/
def broadcast (clientsM : ClientsMap) (chatId : Nat) (event : WsEvent) :
    List (String × WsEvent) :=
  clientsM.filterMap (fun entry =>
    if entry.2.chatId == some chatId && entry.2.readyState == wsOPEN then
      some (entry.1, event)
    else none)

/-- The `ws.on('close')` handler: `clients.delete(id)`. -/
def handleClose (clientsM : ClientsMap) (id : String) : ClientsMap :=
  clientsM.filter (fun entry => !(entry.1 == id))

/-- The `join` message handler: rebind the connection's chat id (a no-op for
an unknown connection id; `Map.set` on an existing key keeps its position). -/
def handleJoin (clientsM : ClientsMap) (id : String) (chatId : Nat) : ClientsMap :=
  clientsM.map (fun entry =>
    if entry.1 == id then (entry.1, { entry.2 with chatId := some chatId }) else entry)

/-- Deliveries produced by a sequence of published events: each event goes
through one broadcast loop over the (unchanged) clients map. -/
def deliveries (clientsM : ClientsMap) (chatId : Nat) (events : List WsEvent) :
    List (String × WsEvent) :=
  (events.map (broadcast clientsM chatId)).flatten

def isMessageUpdate : WsEvent → Bool
  | .messageUpdate _ _ => true
  | _ => false

def isMessageComplete : WsEvent → Bool
  | .messageComplete _ _ => true
  | _ => false

def isMessageError : WsEvent → Bool
  | .messageError _ _ => true
  | _ => false

/-- Number of events of a given shape in a published sequence. -/
def countEvents (p : WsEvent → Bool) (events : List WsEvent) : Nat :=
  (events.filter p).length

/-! ## Relay Engine: the streaming part of `POST /api/chats/:chatId/messages` -/

/-- `chunk.choices[0]?.delta?.content || ""`: a chunk whose delta carries no
content coerces to the empty string. -/
def chunkText (d : Option String) : String := d.getD ""

/-- Concatenation of the text of a chunk sequence. -/
def concatChunks : List (Option String) → String
  | [] => ""
  | d :: rest => chunkText d ++ concatChunks rest

/-- What the fake Completion Client yields: the chunk contents it emits, and
whether it then raises instead of ending the stream normally (`fails = true`
with `chunks = []` models a failure before any delta). -/
structure FakeStream where
  chunks : List (Option String)
  fails : Bool
deriving DecidableEq, Repr

/-- The fallback text persisted by the catch block. -/
def fallbackContent : String :=
  "Sorry, I had trouble generating a response. Please try again."

/-- The `for await (const chunk of stream)` loop: on a non-empty chunk,
extend the accumulator, persist it as the message's content, and publish a
`message-update`; an empty chunk is skipped entirely.  Returns the final
storage, the published events in order, and the accumulator. -/
def relayLoop (st : MemStorage) (messageId : Nat) (fullContent : String) :
    List (Option String) → MemStorage × List WsEvent × String
  | [] => (st, [], fullContent)
  | chunk :: rest =>
    let content := chunkText chunk
    if content ≠ "" then
      let fullContent' := fullContent ++ content
      let st' := (st.updateMessage messageId { content := some fullContent' }).2
      let out := relayLoop st' messageId fullContent' rest
      (out.1, WsEvent.messageUpdate messageId fullContent' :: out.2.1, out.2.2)
    else
      relayLoop st messageId fullContent rest

/-- The whole `try { ... } catch { ... }` block around the stream: process
every emitted chunk, then either (normal end) persist the final accumulator
and publish `message-complete`, or (failure) persist the fallback text and
publish `message-error`. -/
def relayStream (st : MemStorage) (messageId : Nat) (stream : FakeStream) :
    MemStorage × List WsEvent :=
  let out := relayLoop st messageId "" stream.chunks
  if stream.fails then
    let st2 := (out.1.updateMessage messageId { content := some fallbackContent }).2
    (st2, out.2.1 ++ [WsEvent.messageError messageId "Error generating response"])
  else
    let fin := out.1.updateMessage messageId { content := some out.2.2 }
    (fin.2, out.2.1 ++ [WsEvent.messageComplete messageId fin.1])

/-! ## Route handlers -/

/-- The responses the modelled handlers send. -/
inductive HttpResponse where
  | badRequest (msg : String)
  | notFound (msg : String)
  | created (userMessage botMessage : Message)
  | okMessage (message : Option Message)
deriving DecidableEq, Repr

/-- `bot.description || "an AI assistant"` (empty string is falsy). -/
def jsOrStr (o : Option String) (fallback : String) : String :=
  match o with
  | some s => if s == "" then fallback else s
  | none => fallback

/-- A role-tagged prompt message handed to the Completion Client. -/
structure ChatMsg where
  role : String
  content : String
deriving DecidableEq, Repr

/-- Lines 336-366 of `routes.ts`: the ordered history plus the synthesized
leading system message (with the rendered file dump when files were
attached).  This feeds only the abstracted Completion Client. -/
def buildPromptMessages (st : MemStorage) (chatId : Nat) (bot : Bot)
    (fileAttachments : List FileAttachment) : List ChatMsg :=
  let history := st.getMessagesByChatId chatId
  let msgs := history.map (fun m => ChatMsg.mk m.role m.content)
  let fileContentPrompt :=
    if fileAttachments.length > 0 then
      "The user has shared the following files:\n\n"
        ++ String.join (fileAttachments.map
            (fun f => "File: " ++ f.name ++ "\n\n" ++ f.content ++ "\n\n"))
        ++ "Please analyze these files and respond to the user's message."
    else ""
  ChatMsg.mk "system"
      ("You are " ++ bot.name ++ ", " ++ jsOrStr bot.description "an AI assistant"
        ++ ". " ++ fileContentPrompt)
    :: msgs

/-- What `POST /api/chats/:chatId/messages` has done by the time the HTTP
response goes out: the response itself, the storage as mutated so far, and,
when streaming is about to start, the chat id and placeholder message id the
background continuation will use. -/
structure PostMessagesOutcome where
  response : HttpResponse
  storage : MemStorage
  relay : Option (Nat × Nat)
deriving DecidableEq, Repr

/-- The synchronous part of the `POST /api/chats/:chatId/messages` handler
(lines 280-380 of `routes.ts`), up to and including the 201 response.
`chatIdParam = none` models a `NaN` path parameter and `contentField = none`
a multipart body without a `content` field; `insertMessageSchema` requires
`content` to be a string but accepts the empty string, and its `files` field
is optional, so validation fails exactly when `content` is absent. -/
def postMessagesHandler (st : MemStorage) (env : Env) (chatIdParam : Option Nat)
    (contentField : Option String) (uploadedFiles : List FileAttachment) :
    PostMessagesOutcome :=
  match chatIdParam with
  | none => ⟨.badRequest "Invalid chat ID", st, none⟩
  | some chatId =>
    match st.getChat chatId with
    | none => ⟨.notFound "Chat not found", st, none⟩
    | some chat =>
      let fileAttachments := uploadedFiles
      match contentField with
      | none => ⟨.badRequest "Invalid message data", st, none⟩
      | some content =>
        let created := st.createMessage
          ⟨chatId, content, "user",
           if fileAttachments.length > 0 then some fileAttachments else none⟩
        let message := created.1
        let st1 := created.2
        let settingsV := st1.getSettings
        let hasApiKey :=
          jsTruthyStr (settingsV.bind Settings.apiKey) || jsTruthyStr env.openaiApiKey
        if !hasApiKey then
          ⟨.badRequest "API key not configured in settings or environment variables (.env)",
           st1, none⟩
        else
          match st1.getBot chat.botId with
          | none => ⟨.notFound "Bot not found", st1, none⟩
          | some bot =>
            let _promptMessages := buildPromptMessages st1 chatId bot fileAttachments
            let createdBot := st1.createMessage ⟨chatId, "", "assistant", none⟩
            let responseMessage := createdBot.1
            let st2 := createdBot.2
            ⟨.created message responseMessage, st2, some (chatId, responseMessage.id)⟩

/-- Outcome of `PATCH /api/messages/:id`. -/
structure PatchMessageOutcome where
  response : HttpResponse
  storage : MemStorage
  events : List WsEvent
deriving DecidableEq, Repr

/-- The `PATCH /api/messages/:id` handler (lines 474-507 of `routes.ts`).
`insertMessageSchema.partial()` makes every field — `role` included —
optional, so a well-typed body always validates and is merged verbatim. -/
def patchMessageHandler (st : MemStorage) (idParam : Option Nat) (body : MessageUpdate) :
    PatchMessageOutcome :=
  match idParam with
  | none => ⟨.badRequest "Invalid message ID", st, []⟩
  | some id =>
    match st.getMessage id with
    | none => ⟨.notFound "Message not found", st, []⟩
    | some _message =>
      let upd := st.updateMessage id body
      ⟨.okMessage upd.1, upd.2, [WsEvent.messageEdited id upd.1]⟩

/-! ## Settings responses -/

/-- A JSON value as far as the settings responses need one. -/
inductive Json where
  | str (s : String)
  | num (n : Int)
  | bool (b : Bool)
  | null
deriving DecidableEq, Repr

def jsonOfOptStr : Option String → Json
  | some s => .str s
  | none => .null

def jsonOfOptInt : Option Int → Json
  | some n => .num n
  | none => .null

def jsonOfOptBool : Option Bool → Json
  | some b => .bool b
  | none => .null

/-- The body both settings handlers send: the `{apiKey, ...safeSettings}`
destructuring drops the `apiKey` field, the later `hasApiKey` key overwrites
the stored one in the object literal, and `envApiUrl: envApiUrl || undefined`
is omitted by `res.json` when the environment URL is unset or empty. -/
def settingsResponseBody (s : Settings) (env : Env) : List (String × Json) :=
  [("id", Json.num (s.id : Int)),
   ("apiUrl", jsonOfOptStr s.apiUrl),
   ("tokenLimit", jsonOfOptInt s.tokenLimit),
   ("temperature", jsonOfOptStr s.temperature),
   ("topK", jsonOfOptStr s.topK),
   ("useStreamingApi", jsonOfOptBool s.useStreamingApi),
   ("customApiHeaders", jsonOfOptStr s.customApiHeaders),
   ("hasApiKey", Json.bool (jsTruthyStr s.apiKey || jsTruthyStr env.openaiApiKey))]
  ++ (match env.openaiApiUrl with
      | some u => if u == "" then [] else [("envApiUrl", Json.str u)]
      | none => [])
  ++ [("hasEnvApiHeaders", Json.bool (jsTruthyStr env.openaiApiHeaders))]

/-- `GET /api/settings`: `none` models the 404 branch. -/
def getSettingsHandler (st : MemStorage) (env : Env) : Option (List (String × Json)) :=
  (st.getSettings).map (fun s => settingsResponseBody s env)

/-- `PATCH /api/settings`: update, then send the same shape of body. -/
def patchSettingsHandler (st : MemStorage) (env : Env) (u : SettingsUpdate) :
    List (String × Json) × MemStorage :=
  let upd := st.updateSettings u
  (settingsResponseBody upd.1 env, upd.2)


/-! ## Storage lemmas -/

theorem relayLoop_nil (st : MemStorage) (messageId : Nat) (full : String) :
    relayLoop st messageId full [] = (st, [], full) := rfl

theorem relayLoop_cons_empty (st : MemStorage) (messageId : Nat) (full : String)
    (d : Option String) (rest : List (Option String)) (hd : chunkText d = "") :
    relayLoop st messageId full (d :: rest) = relayLoop st messageId full rest := by
  simp [relayLoop, hd]

theorem relayLoop_cons_ne (st : MemStorage) (messageId : Nat) (full : String)
    (d : Option String) (rest : List (Option String)) (hd : chunkText d ≠ "") :
    relayLoop st messageId full (d :: rest)
      = ((relayLoop (st.updateMessage messageId
            { content := some (full ++ chunkText d) }).2 messageId
            (full ++ chunkText d) rest).1,
         WsEvent.messageUpdate messageId (full ++ chunkText d)
           :: (relayLoop (st.updateMessage messageId
            { content := some (full ++ chunkText d) }).2 messageId
            (full ++ chunkText d) rest).2.1,
         (relayLoop (st.updateMessage messageId
            { content := some (full ++ chunkText d) }).2 messageId
            (full ++ chunkText d) rest).2.2) := by
  simp [relayLoop, hd]

theorem find?_setMessageEntry_self (l : List Message) (id : Nat) (x : Message)
    (hx : x.id = id) :
    (setMessageEntry id x l).find? (fun m => m.id == id) = some x := by
  induction l with
  | nil =>
    show List.find? (fun m => m.id == id) [x] = some x
    rw [List.find?_cons_of_pos _ (by simp [hx])]
  | cons y ys ih =>
    by_cases hy : y.id = id
    · show List.find? (fun m => m.id == id) (if y.id == id then x :: ys else _) = some x
      rw [if_pos (by simp [hy]), List.find?_cons_of_pos _ (by simp [hx])]
    · show List.find? (fun m => m.id == id)
          (if y.id == id then _ else y :: setMessageEntry id x ys) = some x
      rw [if_neg (by simp [hy]), List.find?_cons_of_neg _ (by simp [hy])]
      exact ih

theorem find?_setMessageEntry_other (l : List Message) (id id' : Nat) (x : Message)
    (hx : x.id = id) (hne : id' ≠ id) :
    (setMessageEntry id x l).find? (fun m => m.id == id')
      = l.find? (fun m => m.id == id') := by
  have hxne : ¬ (x.id = id') := by rw [hx]; exact fun hh => hne hh.symm
  induction l with
  | nil =>
    show List.find? (fun m => m.id == id') [x] = List.find? (fun m => m.id == id') []
    rw [List.find?_cons_of_neg _ (by simp [hxne])]
  | cons y ys ih =>
    by_cases hy : y.id = id
    · have hyne : ¬ (y.id = id') := by rw [hy]; exact fun hh => hne hh.symm
      show List.find? (fun m => m.id == id') (if y.id == id then x :: ys else _)
          = List.find? (fun m => m.id == id') (y :: ys)
      rw [if_pos (by simp [hy]), List.find?_cons_of_neg _ (by simp [hxne]),
          List.find?_cons_of_neg _ (by simp [hyne])]
    · show List.find? (fun m => m.id == id')
          (if y.id == id then _ else y :: setMessageEntry id x ys)
          = List.find? (fun m => m.id == id') (y :: ys)
      rw [if_neg (by simp [hy])]
      by_cases hy' : y.id = id'
      · rw [List.find?_cons_of_pos _ (by simp [hy']),
            List.find?_cons_of_pos _ (by simp [hy'])]
      · rw [List.find?_cons_of_neg _ (by simp [hy']),
            List.find?_cons_of_neg _ (by simp [hy'])]
        exact ih

theorem applyMessageUpdate_id (m : Message) (u : MessageUpdate) :
    (applyMessageUpdate m u).id = m.id := rfl

theorem updateMessage_getMessage_self (st : MemStorage) (id : Nat) (u : MessageUpdate)
    (m : Message) (h : st.getMessage id = some m) :
    (st.updateMessage id u).2.getMessage id = some (applyMessageUpdate m u) := by
  have hm : m.id = id := by
    have := List.find?_some h
    simpa using this
  simp only [MemStorage.updateMessage, h]
  simp only [MemStorage.getMessage]
  exact find?_setMessageEntry_self st.messages id (applyMessageUpdate m u)
    (by rw [applyMessageUpdate_id, hm])

theorem updateMessage_getMessage_other (st : MemStorage) (id id' : Nat) (u : MessageUpdate)
    (hne : id' ≠ id) :
    (st.updateMessage id u).2.getMessage id' = st.getMessage id' := by
  rcases h : st.getMessage id with _ | m
  · simp [MemStorage.updateMessage, h]
  · have hm : m.id = id := by
      have := List.find?_some h
      simpa using this
    simp only [MemStorage.updateMessage, h]
    simp only [MemStorage.getMessage]
    exact find?_setMessageEntry_other st.messages id id' (applyMessageUpdate m u)
      (by rw [applyMessageUpdate_id, hm]) hne

/-- An update whose body carries no `role` field leaves every message's role
unchanged. -/
theorem updateMessage_role (st : MemStorage) (id id' : Nat) (u : MessageUpdate)
    (hr : u.role = none) :
    ((st.updateMessage id u).2.getMessage id').map Message.role
      = (st.getMessage id').map Message.role := by
  by_cases hid : id' = id
  · subst hid
    rcases h : st.getMessage id' with _ | m
    · simp [MemStorage.updateMessage, h]
    · rw [updateMessage_getMessage_self st id' u m h]
      simp [applyMessageUpdate, hr]
  · rw [updateMessage_getMessage_other st id id' u hid]

/-! ## Relay lemmas -/

theorem relayLoop_acc (messageId : Nat) (chunks : List (Option String)) :
    ∀ (st : MemStorage) (full : String),
      (relayLoop st messageId full chunks).2.2 = full ++ concatChunks chunks := by
  induction chunks with
  | nil => intro st full; simp [relayLoop_nil, concatChunks]
  | cons d rest ih =>
    intro st full
    by_cases hd : chunkText d = ""
    · rw [relayLoop_cons_empty st messageId full d rest hd, ih]
      simp [concatChunks, hd]
    · rw [relayLoop_cons_ne st messageId full d rest hd]
      simp only [ih]
      simp [concatChunks, String.append_assoc]

/-- The streaming loop maintains: the stored content of the streamed message
equals the accumulator, provided they agree at entry. -/
theorem relayLoop_getMessage (messageId : Nat) (chunks : List (Option String)) :
    ∀ (st : MemStorage) (m : Message),
      st.getMessage messageId = some m →
      (relayLoop st messageId m.content chunks).1.getMessage messageId
        = some { m with content := m.content ++ concatChunks chunks } := by
  induction chunks with
  | nil =>
    intro st m hm
    rw [relayLoop_nil]
    simpa [concatChunks] using hm
  | cons d rest ih =>
    intro st m hm
    by_cases hd : chunkText d = ""
    · rw [relayLoop_cons_empty st messageId m.content d rest hd, ih st m hm]
      simp [concatChunks, hd]
    · have hstep :
          (st.updateMessage messageId
              { content := some (m.content ++ chunkText d) }).2.getMessage messageId
            = some { m with content := m.content ++ chunkText d } := by
        rw [updateMessage_getMessage_self st messageId _ m hm]
        simp [applyMessageUpdate]
      have hrec := ih
        (st.updateMessage messageId { content := some (m.content ++ chunkText d) }).2
        { m with content := m.content ++ chunkText d } hstep
      rw [relayLoop_cons_ne st messageId m.content d rest hd]
      simp only at hrec ⊢
      rw [hrec]
      simp [concatChunks, String.append_assoc]

/-- The streaming loop never changes any message's role. -/
theorem relayLoop_role (messageId : Nat) (chunks : List (Option String)) :
    ∀ (st : MemStorage) (full : String) (id' : Nat),
      ((relayLoop st messageId full chunks).1.getMessage id').map Message.role
        = (st.getMessage id').map Message.role := by
  induction chunks with
  | nil => intro st full id'; rw [relayLoop_nil]
  | cons d rest ih =>
    intro st full id'
    by_cases hd : chunkText d = ""
    · rw [relayLoop_cons_empty st messageId full d rest hd, ih]
    · rw [relayLoop_cons_ne st messageId full d rest hd]
      simp only
      rw [ih]
      exact updateMessage_role st messageId id' _ rfl

/-- The streaming loop publishes exactly one `message-update` per non-empty
delta. -/
theorem relayLoop_countUpdate (messageId : Nat) (chunks : List (Option String)) :
    ∀ (st : MemStorage) (full : String),
      countEvents isMessageUpdate (relayLoop st messageId full chunks).2.1
        = (chunks.filter (fun ch => chunkText ch != "")).length := by
  induction chunks with
  | nil => intro st full; simp [relayLoop_nil, countEvents]
  | cons d rest ih =>
    intro st full
    by_cases hd : chunkText d = ""
    · rw [relayLoop_cons_empty st messageId full d rest hd, ih]
      simp [hd]
    · rw [relayLoop_cons_ne st messageId full d rest hd]
      have hbd : (chunkText d != "") = true := by simp [hd]
      simp [countEvents, isMessageUpdate, List.filter_cons, hbd, ih]
      exact ih _ _

/-- The streaming loop publishes no event of any shape other than
`message-update`. -/
theorem relayLoop_count_other (messageId : Nat) (chunks : List (Option String))
    (p : WsEvent → Bool) (hp : ∀ i c, p (WsEvent.messageUpdate i c) = false) :
    ∀ (st : MemStorage) (full : String),
      countEvents p (relayLoop st messageId full chunks).2.1 = 0 := by
  induction chunks with
  | nil => intro st full; simp [relayLoop_nil, countEvents]
  | cons d rest ih =>
    intro st full
    by_cases hd : chunkText d = ""
    · rw [relayLoop_cons_empty st messageId full d rest hd, ih]
    · rw [relayLoop_cons_ne st messageId full d rest hd]
      simp only [countEvents, List.filter, hp] at ih ⊢
      simp [hp, ih]

/-! ## Hub lemmas -/

theorem broadcast_cons (entry : String × Client) (rest : ClientsMap) (chatId : Nat)
    (e : WsEvent) :
    broadcast (entry :: rest) chatId e
      = if (entry.2.chatId == some chatId && entry.2.readyState == wsOPEN)
        then (entry.1, e) :: broadcast rest chatId e
        else broadcast rest chatId e := by
  unfold broadcast
  by_cases hcond : (entry.2.chatId == some chatId && entry.2.readyState == wsOPEN) = true
  · rw [List.filterMap_cons, if_pos hcond, if_pos hcond]
  · rw [List.filterMap_cons, if_neg hcond, if_neg hcond]

/-- In a clients map with distinct keys, a key determines its client. -/
theorem clients_nodup_eq (clientsM : ClientsMap) (hnd : (clientsM.map Prod.fst).Nodup)
    (k : String) (a b : Client) (ha : (k, a) ∈ clientsM) (hb : (k, b) ∈ clientsM) :
    a = b := by
  induction clientsM with
  | nil => cases ha
  | cons entry rest ih =>
    have hnd' : entry.1 ∉ rest.map Prod.fst ∧ (rest.map Prod.fst).Nodup := by
      rw [List.map_cons, List.nodup_cons] at hnd
      exact hnd
    rcases List.mem_cons.mp ha with ha' | ha'
    · rcases List.mem_cons.mp hb with hb' | hb'
      · exact (Prod.ext_iff.mp (ha'.trans hb'.symm)).2
      · exfalso
        apply hnd'.1
        have hek : entry.1 = k := by rw [← ha']
        rw [hek]
        simpa using List.mem_map_of_mem Prod.fst hb'
    · rcases List.mem_cons.mp hb with hb' | hb'
      · exfalso
        apply hnd'.1
        have hek : entry.1 = k := by rw [← hb']
        rw [hek]
        simpa using List.mem_map_of_mem Prod.fst ha'
      · exact ih hnd'.2 ha' hb'

theorem broadcast_filter_not_mem (clientsM : ClientsMap) (vid : String) (chatId : Nat)
    (e : WsEvent) (h : vid ∉ clientsM.map Prod.fst) :
    (broadcast clientsM chatId e).filter (fun p => p.1 == vid) = [] := by
  induction clientsM with
  | nil => rfl
  | cons entry rest ih =>
    have h1 : entry.1 ≠ vid := by
      intro hh
      apply h
      rw [List.map_cons, ← hh]
      exact List.mem_cons_self _ _
    have h2 : vid ∉ rest.map Prod.fst := by
      intro hh
      apply h
      rw [List.map_cons]
      exact List.mem_cons.mpr (Or.inr hh)
    rw [broadcast_cons]
    by_cases hcond : (entry.2.chatId == some chatId && entry.2.readyState == wsOPEN) = true
    · rw [if_pos hcond, List.filter_cons]
      simp only [show ((entry.1, e).1 == vid) = false by simp [h1]]
      simpa using ih h2
    · rw [if_neg hcond]
      exact ih h2

theorem broadcast_filter_mem (clientsM : ClientsMap) (vid : String) (vc : Client)
    (chatId : Nat) (e : WsEvent)
    (hnd : (clientsM.map Prod.fst).Nodup) (hv : (vid, vc) ∈ clientsM)
    (hj : vc.chatId = some chatId) (ho : vc.readyState = wsOPEN) :
    (broadcast clientsM chatId e).filter (fun p => p.1 == vid) = [(vid, e)] := by
  induction clientsM with
  | nil => cases hv
  | cons entry rest ih =>
    have hnd' : entry.1 ∉ rest.map Prod.fst ∧ (rest.map Prod.fst).Nodup := by
      rw [List.map_cons, List.nodup_cons] at hnd
      exact hnd
    rcases List.mem_cons.mp hv with hv' | hv'
    · have hcond : (entry.2.chatId == some chatId && entry.2.readyState == wsOPEN) = true := by
        rw [← hv']
        simp [hj, ho]
      have hkey : entry.1 = vid := by rw [← hv']
      rw [broadcast_cons, if_pos hcond, List.filter_cons]
      simp only [show ((entry.1, e).1 == vid) = true by simp [hkey]]
      have hnm : vid ∉ rest.map Prod.fst := by
        rw [← hkey]
        exact hnd'.1
      rw [broadcast_filter_not_mem rest vid chatId e hnm]
      simp [hkey]
    · have hkey : entry.1 ≠ vid := by
        intro hh
        apply hnd'.1
        rw [hh]
        exact List.mem_map_of_mem Prod.fst hv'
      rw [broadcast_cons]
      by_cases hcond : (entry.2.chatId == some chatId && entry.2.readyState == wsOPEN) = true
      · rw [if_pos hcond, List.filter_cons]
        simp only [show ((entry.1, e).1 == vid) = false by simp [hkey]]
        simpa using ih hnd'.2 hv'
      · rw [if_neg hcond]
        exact ih hnd'.2 hv'

theorem countEvents_append (p : WsEvent → Bool) (l l' : List WsEvent) :
    countEvents p (l ++ l') = countEvents p l + countEvents p l' := by
  simp [countEvents, List.filter_append]

/-- Per published event, a single joined open viewer receives exactly one
delivery; hence its `message-update` deliveries count the published
`message-update` events. -/
theorem deliveries_count_update (clientsM : ClientsMap) (vid : String) (vc : Client)
    (chatId : Nat) (events : List WsEvent)
    (hnd : (clientsM.map Prod.fst).Nodup) (hv : (vid, vc) ∈ clientsM)
    (hj : vc.chatId = some chatId) (ho : vc.readyState = wsOPEN) :
    ((deliveries clientsM chatId events).filter
        (fun p => p.1 == vid && isMessageUpdate p.2)).length
      = countEvents isMessageUpdate events := by
  induction events with
  | nil => rfl
  | cons e rest ih =>
    have hdel : deliveries clientsM chatId (e :: rest)
        = broadcast clientsM chatId e ++ deliveries clientsM chatId rest := by
      simp [deliveries]
    rw [hdel, List.filter_append, List.length_append, ih]
    have hcomb : (broadcast clientsM chatId e).filter
          (fun p => p.1 == vid && isMessageUpdate p.2)
        = ((broadcast clientsM chatId e).filter (fun p => p.1 == vid)).filter
            (fun p => isMessageUpdate p.2) := by
      rw [List.filter_filter]
      exact List.filter_congr (fun a _ => by rw [Bool.and_comm])
    rw [hcomb, broadcast_filter_mem clientsM vid vc chatId e hnd hv hj ho]
    by_cases he : isMessageUpdate e = true
    · simp [countEvents, List.filter_cons, he, Nat.add_comm]
    · simp [countEvents, List.filter_cons, he]

/-! ## Concrete fixtures used by witnesses and counterexamples -/

def fxBot : Bot :=
  ⟨1, "AI Assistant", "A", "#0078D4", some "General AI Assistant", "gpt-4o", 0⟩

def fxChat : Chat := ⟨1, 1, "New chat", 0⟩

/-- A chat whose owning bot has been deleted. -/
def fxChatNoBot : Chat := ⟨1, 99, "Orphan chat", 0⟩

def fxSettingsWith (k : Option String) : Settings :=
  ⟨1, k, some "https://api.openai.com/v1", some 4000, some "0.7", some "0.5",
   some true, some "", some false⟩

def fxEnv : Env := ⟨none, none, none⟩

def fxStore : MemStorage :=
  ⟨[fxBot], [fxChat], [], some (fxSettingsWith (some "sk-test")), 2, 2, 1, 10⟩

def fxStoreNoKey : MemStorage :=
  ⟨[fxBot], [fxChat], [], some (fxSettingsWith (some "")), 2, 2, 1, 10⟩

def fxStoreNoBot : MemStorage :=
  ⟨[], [fxChatNoBot], [], some (fxSettingsWith (some "sk-test")), 1, 2, 1, 10⟩

def fxUserMsg : Message := ⟨1, 1, "hi", "user", 0, none⟩

def fxPlaceholder : Message := ⟨2, 1, "", "assistant", 1, none⟩

/-- Store as it stands when streaming begins: user message and empty
placeholder persisted. -/
def fxStoreStreaming : MemStorage :=
  ⟨[fxBot], [fxChat], [fxUserMsg, fxPlaceholder],
   some (fxSettingsWith (some "sk-test")), 2, 2, 3, 10⟩

def fxClients : ClientsMap :=
  [("a", ⟨some 7, 1⟩), ("b", ⟨some 8, 1⟩), ("c", ⟨none, 1⟩)]

/-! ## Claim theorems -/

/-- C1: for every delta sequence produced by the Completion Client, after the
relay loop processes the first `k` deltas the persisted content of the
placeholder assistant message equals the concatenation of those deltas;
after a normal stream end the persisted content equals the concatenation of
all deltas and exactly one `message-complete` event is published for the
chat. -/
theorem relay_persists_delta_concat (st : MemStorage) (messageId : Nat) (m : Message)
    (chunks : List (Option String)) (k : Nat)
    (hm : st.getMessage messageId = some m) (h0 : m.content = "") :
    (((relayLoop st messageId "" (chunks.take k)).1.getMessage messageId).map Message.content
        = some (concatChunks (chunks.take k)))
    ∧ (((relayStream st messageId (FakeStream.mk chunks false)).1.getMessage messageId).map
          Message.content = some (concatChunks chunks))
    ∧ countEvents isMessageComplete
        (relayStream st messageId (FakeStream.mk chunks false)).2 = 1 := by
  have hpre := relayLoop_getMessage messageId (chunks.take k) st m hm
  rw [h0] at hpre
  have hfull := relayLoop_getMessage messageId chunks st m hm
  rw [h0] at hfull
  have hacc := relayLoop_acc messageId chunks st ""
  refine ⟨?_, ?_, ?_⟩
  · rw [hpre]
    simp
  · have h1 : (relayStream st messageId (FakeStream.mk chunks false)).1
        = ((relayLoop st messageId "" chunks).1.updateMessage messageId
            { content := some (relayLoop st messageId "" chunks).2.2 }).2 := by
      simp [relayStream]
    rw [h1, updateMessage_getMessage_self _ messageId _ _ hfull]
    simp [applyMessageUpdate, hacc]
  · have h2 : (relayStream st messageId (FakeStream.mk chunks false)).2
        = (relayLoop st messageId "" chunks).2.1
          ++ [WsEvent.messageComplete messageId
               ((relayLoop st messageId "" chunks).1.updateMessage messageId
                 { content := some (relayLoop st messageId "" chunks).2.2 }).1] := by
      simp [relayStream]
    rw [h2, countEvents_append,
        relayLoop_count_other messageId chunks isMessageComplete (fun _ _ => rfl) st ""]
    simp [countEvents, isMessageComplete]

theorem relay_persists_delta_concat_witness :
    ((((relayLoop fxStoreStreaming 2 "" ([some "Hel", some "lo!"].take 1)).1.getMessage 2).map
        Message.content = some (concatChunks ([some "Hel", some "lo!"].take 1)))
    ∧ (((relayStream fxStoreStreaming 2
          (FakeStream.mk [some "Hel", some "lo!"] false)).1.getMessage 2).map
          Message.content = some (concatChunks [some "Hel", some "lo!"]))
    ∧ countEvents isMessageComplete
        (relayStream fxStoreStreaming 2 (FakeStream.mk [some "Hel", some "lo!"] false)).2 = 1) :=
  relay_persists_delta_concat fxStoreStreaming 2 fxPlaceholder [some "Hel", some "lo!"] 1
    rfl rfl

/-- C2: when the Completion Client fails — before or after partial deltas —
the persisted content of the placeholder assistant message ends up being the
fixed fallback string, exactly one `message-error` event is published for
the chat, and no `message-complete` event is published. -/
theorem relay_failure_persists_fallback (st : MemStorage) (messageId : Nat) (m : Message)
    (chunks : List (Option String)) (hm : st.getMessage messageId = some m) :
    (((relayStream st messageId (FakeStream.mk chunks true)).1.getMessage messageId).map
        Message.content = some fallbackContent)
    ∧ countEvents isMessageError (relayStream st messageId (FakeStream.mk chunks true)).2 = 1
    ∧ countEvents isMessageComplete
        (relayStream st messageId (FakeStream.mk chunks true)).2 = 0 := by
  have hrole := relayLoop_role messageId chunks st "" messageId
  rw [hm] at hrole
  obtain ⟨m', hm'⟩ : ∃ m', (relayLoop st messageId "" chunks).1.getMessage messageId = some m' := by
    rcases hq : (relayLoop st messageId "" chunks).1.getMessage messageId with _ | mq
    · rw [hq] at hrole
      simp at hrole
    · exact ⟨mq, rfl⟩
  have h2 : (relayStream st messageId (FakeStream.mk chunks true)).2
      = (relayLoop st messageId "" chunks).2.1
        ++ [WsEvent.messageError messageId "Error generating response"] := by
    simp [relayStream]
  refine ⟨?_, ?_, ?_⟩
  · have h1 : (relayStream st messageId (FakeStream.mk chunks true)).1
        = ((relayLoop st messageId "" chunks).1.updateMessage messageId
            { content := some fallbackContent }).2 := by
      simp [relayStream]
    rw [h1, updateMessage_getMessage_self _ messageId _ m' hm']
    simp [applyMessageUpdate]
  · rw [h2, countEvents_append,
        relayLoop_count_other messageId chunks isMessageError (fun _ _ => rfl) st ""]
    simp [countEvents, isMessageError]
  · rw [h2, countEvents_append,
        relayLoop_count_other messageId chunks isMessageComplete (fun _ _ => rfl) st ""]
    simp [countEvents, isMessageComplete]

theorem relay_failure_persists_fallback_witness :
    ((((relayStream fxStoreStreaming 2 (FakeStream.mk [some "Hel"] true)).1.getMessage 2).map
        Message.content = some fallbackContent)
    ∧ countEvents isMessageError
        (relayStream fxStoreStreaming 2 (FakeStream.mk [some "Hel"] true)).2 = 1
    ∧ countEvents isMessageComplete
        (relayStream fxStoreStreaming 2 (FakeStream.mk [some "Hel"] true)).2 = 0) :=
  relay_failure_persists_fallback fxStoreStreaming 2 fxPlaceholder [some "Hel"] rfl

def fxClientsPair : ClientsMap := [("a", ⟨some 7, 1⟩), ("b", ⟨some 7, 1⟩)]

/-- C4: publish delivers an event for chat C exactly to the registered
connections bound to C with an open socket (connections bound elsewhere or
unbound are skipped); the close handler removes a failed connection from the
Hub, and that removal does not affect delivery to any other connection. -/
theorem hub_publish_delivery (clientsM : ClientsMap) (chatId : Nat) (ev : WsEvent)
    (cid fid : String) (c c' : Client)
    (hnd : (clientsM.map Prod.fst).Nodup) (hc : (cid, c) ∈ clientsM) (hne : cid ≠ fid) :
    ((cid, ev) ∈ broadcast clientsM chatId ev
        ↔ (c.chatId = some chatId ∧ c.readyState = wsOPEN))
    ∧ ((fid, c') ∉ handleClose clientsM fid)
    ∧ ((cid, ev) ∈ broadcast (handleClose clientsM fid) chatId ev
        ↔ (cid, ev) ∈ broadcast clientsM chatId ev) := by
  refine ⟨?_, ?_, ?_⟩
  · constructor
    · intro hmem
      simp only [broadcast] at hmem
      obtain ⟨entry, hentry, hfe⟩ := List.mem_filterMap.mp hmem
      by_cases hcond : (entry.2.chatId == some chatId && entry.2.readyState == wsOPEN) = true
      · rw [if_pos hcond] at hfe
        have h1 : entry.1 = cid := (Prod.ext_iff.mp (Option.some.inj hfe)).1
        have h2 : entry.2 = c := by
          apply clients_nodup_eq clientsM hnd cid entry.2 c _ hc
          rw [← h1]
          exact hentry
        rw [← h2]
        simpa using hcond
      · rw [if_neg hcond] at hfe
        cases hfe
    · intro hco
      simp only [broadcast]
      exact List.mem_filterMap.mpr ⟨(cid, c), hc, by simp [hco.1, hco.2]⟩
  · intro hmem
    have := (List.mem_filter.mp hmem).2
    simp at this
  · constructor
    · intro hmem
      simp only [broadcast] at hmem ⊢
      obtain ⟨entry, hentry, hfe⟩ := List.mem_filterMap.mp hmem
      exact List.mem_filterMap.mpr ⟨entry, List.mem_of_mem_filter hentry, hfe⟩
    · intro hmem
      simp only [broadcast] at hmem ⊢
      obtain ⟨entry, hentry, hfe⟩ := List.mem_filterMap.mp hmem
      have h1 : entry.1 = cid := by
        by_cases hcond : (entry.2.chatId == some chatId && entry.2.readyState == wsOPEN) = true
        · rw [if_pos hcond] at hfe
          exact (Prod.ext_iff.mp (Option.some.inj hfe)).1
        · rw [if_neg hcond] at hfe
          cases hfe
      refine List.mem_filterMap.mpr ⟨entry, ?_, hfe⟩
      apply List.mem_filter.mpr
      exact ⟨hentry, by simp [h1, hne]⟩

theorem hub_publish_delivery_witness :
    ((("a", WsEvent.messageUpdate 2 "x")
        ∈ broadcast fxClientsPair 7 (WsEvent.messageUpdate 2 "x"))
      ↔ ((Client.mk (some 7) 1).chatId = some 7 ∧ (Client.mk (some 7) 1).readyState = wsOPEN))
    ∧ (("b", Client.mk (some 7) 1) ∉ handleClose fxClientsPair "b")
    ∧ ((("a", WsEvent.messageUpdate 2 "x")
          ∈ broadcast (handleClose fxClientsPair "b") 7 (WsEvent.messageUpdate 2 "x"))
        ↔ (("a", WsEvent.messageUpdate 2 "x")
          ∈ broadcast fxClientsPair 7 (WsEvent.messageUpdate 2 "x"))) :=
  hub_publish_delivery fxClientsPair 7 (WsEvent.messageUpdate 2 "x") "a" "b"
    (Client.mk (some 7) 1) (Client.mk (some 7) 1) (by decide) (by decide) (by decide)

/-- C9: a delta whose coerced text is empty is skipped entirely — the loop
state is exactly as if the delta were absent, so nothing is persisted and no
event is published for it — and the number of `message-update` events
delivered to a single viewer joined to the chat equals the number of
non-empty deltas in the stream. -/
theorem empty_delta_skipped_update_count (st : MemStorage) (messageId : Nat)
    (fullContent : String) (d : Option String) (rest chunks : List (Option String))
    (clientsM : ClientsMap) (chatId : Nat) (vid : String) (vc : Client)
    (hd : chunkText d = "") (hnd : (clientsM.map Prod.fst).Nodup)
    (hv : (vid, vc) ∈ clientsM) (hj : vc.chatId = some chatId)
    (ho : vc.readyState = wsOPEN) :
    relayLoop st messageId fullContent (d :: rest) = relayLoop st messageId fullContent rest
    ∧ countEvents isMessageUpdate (relayStream st messageId (FakeStream.mk chunks false)).2
        = (chunks.filter (fun ch => chunkText ch != "")).length
    ∧ ((deliveries clientsM chatId
          (relayStream st messageId (FakeStream.mk chunks false)).2).filter
          (fun p => p.1 == vid && isMessageUpdate p.2)).length
        = (chunks.filter (fun ch => chunkText ch != "")).length := by
  have h2 : (relayStream st messageId (FakeStream.mk chunks false)).2
      = (relayLoop st messageId "" chunks).2.1
        ++ [WsEvent.messageComplete messageId
             ((relayLoop st messageId "" chunks).1.updateMessage messageId
               { content := some (relayLoop st messageId "" chunks).2.2 }).1] := by
    simp [relayStream]
  have hcount : countEvents isMessageUpdate
      (relayStream st messageId (FakeStream.mk chunks false)).2
        = (chunks.filter (fun ch => chunkText ch != "")).length := by
    rw [h2, countEvents_append, relayLoop_countUpdate]
    simp [countEvents, isMessageUpdate]
  refine ⟨relayLoop_cons_empty st messageId fullContent d rest hd, hcount, ?_⟩
  rw [deliveries_count_update clientsM vid vc chatId _ hnd hv hj ho, hcount]

theorem empty_delta_skipped_update_count_witness :
    (relayLoop fxStoreStreaming 2 "" (some "" :: [some "x"])
        = relayLoop fxStoreStreaming 2 "" [some "x"])
    ∧ countEvents isMessageUpdate
        (relayStream fxStoreStreaming 2
          (FakeStream.mk [some "Hel", none, some "lo!"] false)).2
        = ([some "Hel", none, some "lo!"].filter (fun ch => chunkText ch != "")).length
    ∧ ((deliveries fxClients 7
          (relayStream fxStoreStreaming 2
            (FakeStream.mk [some "Hel", none, some "lo!"] false)).2).filter
          (fun p => p.1 == "a" && isMessageUpdate p.2)).length
        = ([some "Hel", none, some "lo!"].filter (fun ch => chunkText ch != "")).length :=
  empty_delta_skipped_update_count fxStoreStreaming 2 "" (some "") [some "x"]
    [some "Hel", none, some "lo!"] fxClients 7 "a" (Client.mk (some 7) 1)
    rfl (by decide) (by decide) rfl rfl

theorem createMessage_getSettings (st : MemStorage) (im : InsertMessage) :
    (st.createMessage im).2.getSettings = st.getSettings := rfl

theorem createMessage_getBot (st : MemStorage) (im : InsertMessage) (i : Nat) :
    (st.createMessage im).2.getBot i = st.getBot i := rfl

/-- C3 counterexample: a request with a valid chat id and non-empty content
is answered 400 when no API key is resolvable, and 404 when the chat's
owning bot is missing — not 201. -/
theorem post_message_not_always_created_cex :
    ((fxStoreNoKey.getChat 1).isSome = true)
    ∧ ((postMessagesHandler fxStoreNoKey fxEnv (some 1) (some "hi") []).response
        = HttpResponse.badRequest
            "API key not configured in settings or environment variables (.env)")
    ∧ ((fxStoreNoBot.getChat 1).isSome = true)
    ∧ ((postMessagesHandler fxStoreNoBot fxEnv (some 1) (some "hi") []).response
        = HttpResponse.notFound "Bot not found") :=
  ⟨rfl, rfl, rfl, rfl⟩

/-- C3 (amended): when additionally an API key is resolvable and the chat's
owning bot exists, the request is answered 201 with the persisted user
message and a placeholder assistant message whose content is empty at
response time. -/
theorem post_message_created_with_key_and_bot (st : MemStorage) (env : Env) (chatId : Nat)
    (chat : Chat) (bot : Bot) (c : String) (files : List FileAttachment)
    (hc : st.getChat chatId = some chat) (_hne : c ≠ "")
    (hkey : (jsTruthyStr ((st.getSettings).bind Settings.apiKey)
        || jsTruthyStr env.openaiApiKey) = true)
    (hbot : st.getBot chat.botId = some bot) :
    ∃ um bm, (postMessagesHandler st env (some chatId) (some c) files).response
        = HttpResponse.created um bm
      ∧ um.role = "user" ∧ um.content = c ∧ bm.role = "assistant" ∧ bm.content = ""
      ∧ um ∈ (postMessagesHandler st env (some chatId) (some c) files).storage.messages
      ∧ bm ∈ (postMessagesHandler st env (some chatId) (some c) files).storage.messages
      ∧ (postMessagesHandler st env (some chatId) (some c) files).relay
          = some (chatId, bm.id) := by
  have hkey' : (jsTruthyStr (((st.createMessage (InsertMessage.mk chatId c "user"
      (if files.length > 0 then some files else none))).2.getSettings).bind Settings.apiKey)
        || jsTruthyStr env.openaiApiKey) = true := hkey
  have hbot' : (st.createMessage (InsertMessage.mk chatId c "user"
      (if files.length > 0 then some files else none))).2.getBot chat.botId = some bot := hbot
  refine ⟨(st.createMessage (InsertMessage.mk chatId c "user"
      (if files.length > 0 then some files else none))).1,
    ((st.createMessage (InsertMessage.mk chatId c "user"
      (if files.length > 0 then some files else none))).2.createMessage
      (InsertMessage.mk chatId "" "assistant" none)).1, ?_, rfl, rfl, rfl, rfl, ?_, ?_, ?_⟩
  · simp only [postMessagesHandler, hc, hkey', hbot', Bool.not_true, Bool.false_eq_true,
      if_false]
  · simp only [postMessagesHandler, hc, hkey', hbot', Bool.not_true, Bool.false_eq_true,
      if_false]
    simp [MemStorage.createMessage]
  · simp only [postMessagesHandler, hc, hkey', hbot', Bool.not_true, Bool.false_eq_true,
      if_false]
    simp [MemStorage.createMessage]
  · simp only [postMessagesHandler, hc, hkey', hbot', Bool.not_true, Bool.false_eq_true,
      if_false]

theorem post_message_created_with_key_and_bot_witness :
    ∃ um bm, (postMessagesHandler fxStore fxEnv (some 1) (some "hi") []).response
        = HttpResponse.created um bm
      ∧ um.role = "user" ∧ um.content = "hi" ∧ bm.role = "assistant" ∧ bm.content = ""
      ∧ um ∈ (postMessagesHandler fxStore fxEnv (some 1) (some "hi") []).storage.messages
      ∧ bm ∈ (postMessagesHandler fxStore fxEnv (some 1) (some "hi") []).storage.messages
      ∧ (postMessagesHandler fxStore fxEnv (some 1) (some "hi") []).relay
          = some (1, bm.id) :=
  post_message_created_with_key_and_bot fxStore fxEnv 1 fxChat fxBot "hi" []
    rfl (by decide) rfl rfl

/-- C7: the API-key check happens after the user message is persisted but
before the placeholder assistant message is created: on failure the response
is 400, no streaming continuation starts, and the only message added by the
request is the user message (role `user`), so no assistant message is
persisted. -/
theorem api_key_checked_before_placeholder (st : MemStorage) (env : Env) (chatId : Nat)
    (chat : Chat) (c : String) (files : List FileAttachment)
    (hc : st.getChat chatId = some chat)
    (hkey : (jsTruthyStr ((st.getSettings).bind Settings.apiKey)
        || jsTruthyStr env.openaiApiKey) = false) :
    ((postMessagesHandler st env (some chatId) (some c) files).response
        = HttpResponse.badRequest
            "API key not configured in settings or environment variables (.env)")
    ∧ ((postMessagesHandler st env (some chatId) (some c) files).relay = none)
    ∧ ((postMessagesHandler st env (some chatId) (some c) files).storage.messages
        = st.messages
          ++ [(st.createMessage (InsertMessage.mk chatId c "user"
                (if files.length > 0 then some files else none))).1])
    ∧ ((st.createMessage (InsertMessage.mk chatId c "user"
          (if files.length > 0 then some files else none))).1.role = "user") := by
  have hkey' : (jsTruthyStr (((st.createMessage (InsertMessage.mk chatId c "user"
      (if files.length > 0 then some files else none))).2.getSettings).bind Settings.apiKey)
        || jsTruthyStr env.openaiApiKey) = false := hkey
  refine ⟨?_, ?_, ?_, rfl⟩
  · simp only [postMessagesHandler, hc, hkey', Bool.not_false, if_true]
  · simp only [postMessagesHandler, hc, hkey', Bool.not_false, if_true]
  · simp only [postMessagesHandler, hc, hkey', Bool.not_false, if_true]
    simp [MemStorage.createMessage]

theorem api_key_checked_before_placeholder_witness :
    ((postMessagesHandler fxStoreNoKey fxEnv (some 1) (some "hi") []).response
        = HttpResponse.badRequest
            "API key not configured in settings or environment variables (.env)")
    ∧ ((postMessagesHandler fxStoreNoKey fxEnv (some 1) (some "hi") []).relay = none)
    ∧ ((postMessagesHandler fxStoreNoKey fxEnv (some 1) (some "hi") []).storage.messages
        = fxStoreNoKey.messages
          ++ [(fxStoreNoKey.createMessage (InsertMessage.mk 1 "hi" "user"
                (if ([] : List FileAttachment).length > 0 then some [] else none))).1])
    ∧ ((fxStoreNoKey.createMessage (InsertMessage.mk 1 "hi" "user"
          (if ([] : List FileAttachment).length > 0 then some [] else none))).1.role
        = "user") :=
  api_key_checked_before_placeholder fxStoreNoKey fxEnv 1 fxChat "hi" [] rfl rfl

/-- C10: when the request fails 400 for a missing API key, the user message
submitted in that request has already been persisted and remains in the
store — the failing request does not roll it back. -/
theorem user_message_kept_on_key_failure (st : MemStorage) (env : Env) (chatId : Nat)
    (chat : Chat) (c : String) (files : List FileAttachment)
    (hc : st.getChat chatId = some chat)
    (hkey : (jsTruthyStr ((st.getSettings).bind Settings.apiKey)
        || jsTruthyStr env.openaiApiKey) = false) :
    ((postMessagesHandler st env (some chatId) (some c) files).response
        = HttpResponse.badRequest
            "API key not configured in settings or environment variables (.env)")
    ∧ ((st.createMessage (InsertMessage.mk chatId c "user"
          (if files.length > 0 then some files else none))).1
        ∈ (postMessagesHandler st env (some chatId) (some c) files).storage.messages)
    ∧ ((st.createMessage (InsertMessage.mk chatId c "user"
          (if files.length > 0 then some files else none))).1.content = c) := by
  have hkey' : (jsTruthyStr (((st.createMessage (InsertMessage.mk chatId c "user"
      (if files.length > 0 then some files else none))).2.getSettings).bind Settings.apiKey)
        || jsTruthyStr env.openaiApiKey) = false := hkey
  refine ⟨?_, ?_, rfl⟩
  · simp only [postMessagesHandler, hc, hkey', Bool.not_false, if_true]
  · simp only [postMessagesHandler, hc, hkey', Bool.not_false, if_true]
    simp [MemStorage.createMessage]

theorem user_message_kept_on_key_failure_witness :
    ((postMessagesHandler fxStoreNoKey fxEnv (some 1) (some "keep me") []).response
        = HttpResponse.badRequest
            "API key not configured in settings or environment variables (.env)")
    ∧ ((fxStoreNoKey.createMessage (InsertMessage.mk 1 "keep me" "user"
          (if ([] : List FileAttachment).length > 0 then some [] else none))).1
        ∈ (postMessagesHandler fxStoreNoKey fxEnv (some 1) (some "keep me") []).storage.messages)
    ∧ ((fxStoreNoKey.createMessage (InsertMessage.mk 1 "keep me" "user"
          (if ([] : List FileAttachment).length > 0 then some [] else none))).1.content
        = "keep me") :=
  user_message_kept_on_key_failure fxStoreNoKey fxEnv 1 fxChat "keep me" [] rfl rfl

/-- C5 counterexample: an unknown chat id is answered 404 (`Chat not
found`), not 400; and a submitted empty-string content with no files passes
validation — the request is answered 201, not 400. -/
theorem post_message_status_codes_cex :
    (fxStore.getChat 5 = none)
    ∧ ((postMessagesHandler fxStore fxEnv (some 5) (some "hi") []).response
        = HttpResponse.notFound "Chat not found")
    ∧ ((postMessagesHandler fxStore fxEnv (some 1) (some "") []).response
        = HttpResponse.created (Message.mk 1 1 "" "user" 10 none)
            (Message.mk 2 1 "" "assistant" 11 none)) :=
  ⟨rfl, rfl, rfl⟩

/-- C5 (amended): an unknown chat id is answered 404, and a submission whose
multipart body carries no `content` field at all is answered 400
(`insertMessageSchema` requires `content` to be present but accepts the
empty string). -/
theorem post_message_unknown_chat_404_missing_content_400 (st : MemStorage) (env : Env)
    (chatId : Nat) (contentField : Option String) (files files' : List FileAttachment) :
    (st.getChat chatId = none →
      (postMessagesHandler st env (some chatId) contentField files).response
        = HttpResponse.notFound "Chat not found")
    ∧ ((st.getChat chatId).isSome = true →
      (postMessagesHandler st env (some chatId) none files').response
        = HttpResponse.badRequest "Invalid message data") := by
  constructor
  · intro h
    simp [postMessagesHandler, h]
  · intro h
    rcases hq : st.getChat chatId with _ | chat
    · rw [hq] at h
      simp at h
    · simp [postMessagesHandler, hq]

theorem post_message_unknown_chat_404_missing_content_400_witness :
    ((postMessagesHandler fxStore fxEnv (some 5) (some "x") []).response
        = HttpResponse.notFound "Chat not found")
    ∧ ((postMessagesHandler fxStore fxEnv (some 1) none []).response
        = HttpResponse.badRequest "Invalid message data") :=
  ⟨(post_message_unknown_chat_404_missing_content_400 fxStore fxEnv 5 (some "x") [] []).1 rfl,
   (post_message_unknown_chat_404_missing_content_400 fxStore fxEnv 1 (some "x") [] []).2 rfl⟩

def fxStorePatch : MemStorage :=
  ⟨[fxBot], [fxChat], [fxUserMsg], some (fxSettingsWith (some "sk-test")), 2, 2, 2, 10⟩

/-- C6 counterexample: `PATCH /api/messages/:id` validates with
`insertMessageSchema.partial()`, which includes `role`, and the storage
merge forwards it — a PATCH body carrying a `role` field changes the
message's role after creation. -/
theorem patch_changes_role_cex :
    ((fxStorePatch.getMessage 1).map Message.role = some "user")
    ∧ (((patchMessageHandler fxStorePatch (some 1)
          { role := some "assistant" }).storage.getMessage 1).map Message.role
        = some "assistant") :=
  ⟨rfl, rfl⟩

/-- C6 (amended): a message's role is never changed by the streaming relay
nor by any storage update or PATCH whose body omits the `role` field; only a
PATCH body that itself carries a `role` field can change it. -/
theorem message_role_preserved_without_role_field (st : MemStorage)
    (id id' messageId : Nat) (u : MessageUpdate) (idParam : Option Nat)
    (stream : FakeStream) (hr : u.role = none) :
    (((st.updateMessage id u).2.getMessage id').map Message.role
        = (st.getMessage id').map Message.role)
    ∧ (((relayStream st messageId stream).1.getMessage id').map Message.role
        = (st.getMessage id').map Message.role)
    ∧ (((patchMessageHandler st idParam u).storage.getMessage id').map Message.role
        = (st.getMessage id').map Message.role) := by
  have hstream : ((relayStream st messageId stream).1.getMessage id').map Message.role
      = (st.getMessage id').map Message.role := by
    rcases stream with ⟨chunks, fails⟩
    cases fails
    · have h1 : (relayStream st messageId (FakeStream.mk chunks false)).1
          = ((relayLoop st messageId "" chunks).1.updateMessage messageId
              { content := some (relayLoop st messageId "" chunks).2.2 }).2 := by
        simp [relayStream]
      rw [h1, updateMessage_role _ messageId id' _ rfl, relayLoop_role]
    · have h1 : (relayStream st messageId (FakeStream.mk chunks true)).1
          = ((relayLoop st messageId "" chunks).1.updateMessage messageId
              { content := some fallbackContent }).2 := by
        simp [relayStream]
      rw [h1, updateMessage_role _ messageId id' _ rfl, relayLoop_role]
  refine ⟨updateMessage_role st id id' u hr, hstream, ?_⟩
  rcases idParam with _ | pid
  · simp [patchMessageHandler]
  · rcases hq : st.getMessage pid with _ | pm
    · simp [patchMessageHandler, hq]
    · have hps : (patchMessageHandler st (some pid) u).storage = (st.updateMessage pid u).2 := by
        simp [patchMessageHandler, hq]
      rw [hps, updateMessage_role st pid id' u hr]

theorem message_role_preserved_without_role_field_witness :
    (((fxStorePatch.updateMessage 1 { content := some "edited" }).2.getMessage 1).map
        Message.role = (fxStorePatch.getMessage 1).map Message.role)
    ∧ (((relayStream fxStorePatch 1
          (FakeStream.mk [some "x"] false)).1.getMessage 1).map Message.role
        = (fxStorePatch.getMessage 1).map Message.role)
    ∧ (((patchMessageHandler fxStorePatch (some 1)
          { content := some "edited" }).storage.getMessage 1).map Message.role
        = (fxStorePatch.getMessage 1).map Message.role) :=
  message_role_preserved_without_role_field fxStorePatch 1 1 1
    { content := some "edited" } (some 1) (FakeStream.mk [some "x"] false) rfl

theorem settingsResponseBody_no_apiKey (s : Settings) (env : Env) :
    ("apiKey" ∉ (settingsResponseBody s env).map Prod.fst)
    ∧ (settingsResponseBody s env).lookup "hasApiKey"
        = some (Json.bool (jsTruthyStr s.apiKey || jsTruthyStr env.openaiApiKey)) := by
  constructor
  · rcases env with ⟨k, url, hdrs⟩
    rcases url with _ | u
    · simp [settingsResponseBody]
    · by_cases hu : (u == "") = true
      · simp [settingsResponseBody, hu]
      · simp [settingsResponseBody, hu]
  · rfl

/-- C8: neither `GET /api/settings` nor `PATCH /api/settings` ever includes
the raw API key in the response body; both substitute the boolean
`hasApiKey`, regardless of the stored key. -/
theorem settings_responses_hide_api_key (st : MemStorage) (env : Env) (u : SettingsUpdate)
    (s : Settings) (hs : st.getSettings = some s) :
    (getSettingsHandler st env = some (settingsResponseBody s env))
    ∧ ("apiKey" ∉ (settingsResponseBody s env).map Prod.fst)
    ∧ ((settingsResponseBody s env).lookup "hasApiKey"
        = some (Json.bool (jsTruthyStr s.apiKey || jsTruthyStr env.openaiApiKey)))
    ∧ ("apiKey" ∉ ((patchSettingsHandler st env u).1.map Prod.fst))
    ∧ (((patchSettingsHandler st env u).1).lookup "hasApiKey"
        = some (Json.bool (jsTruthyStr ((st.updateSettings u).1.apiKey)
            || jsTruthyStr env.openaiApiKey))) := by
  have h1 := settingsResponseBody_no_apiKey s env
  have h2 := settingsResponseBody_no_apiKey (st.updateSettings u).1 env
  exact ⟨by simp [getSettingsHandler, hs], h1.1, h1.2, h2.1, h2.2⟩

theorem settings_responses_hide_api_key_witness :
    (getSettingsHandler fxStore fxEnv
        = some (settingsResponseBody (fxSettingsWith (some "sk-test")) fxEnv))
    ∧ ("apiKey" ∉ (settingsResponseBody (fxSettingsWith (some "sk-test")) fxEnv).map Prod.fst)
    ∧ ((settingsResponseBody (fxSettingsWith (some "sk-test")) fxEnv).lookup "hasApiKey"
        = some (Json.bool (jsTruthyStr (fxSettingsWith (some "sk-test")).apiKey
            || jsTruthyStr fxEnv.openaiApiKey)))
    ∧ ("apiKey" ∉ ((patchSettingsHandler fxStore fxEnv
          { apiKey := some (some "sk-new") }).1.map Prod.fst))
    ∧ (((patchSettingsHandler fxStore fxEnv { apiKey := some (some "sk-new") }).1).lookup
          "hasApiKey"
        = some (Json.bool (jsTruthyStr
            ((fxStore.updateSettings { apiKey := some (some "sk-new") }).1.apiKey)
            || jsTruthyStr fxEnv.openaiApiKey))) :=
  settings_responses_hide_api_key fxStore fxEnv { apiKey := some (some "sk-new") }
    (fxSettingsWith (some "sk-test")) rfl
